import Mathlib

/-!
Shallow embedding of the native-extension build orchestration in `setup.py`
(SQLAlchemy). The script decides whether to compile the optional C extension
modules, classifies compilation failures, retries without the extensions, and
reports status blocks. We model one process run as a pure function of:
the interpreter kind (`cpython`), the OS platform (`sys.platform`), the two
environment flags (`DISABLE_SQLALCHEMY_CEXT`, `REQUIRE_SQLALCHEMY_CEXT`), and
the behaviour of the underlying compiler toolchain (the exception, if any, it
raises while compiling the extension set).
-/

namespace SetupBuild

/-- OS identity as reported by `sys.platform`: the script distinguishes
`win32`, `linux`, and everything else. -/
inductive PyPlatform
  | win32
  | linux
  | otherOS
deriving DecidableEq

/-- Python exception values relevant to `setup.py`; each carries `str(exc)`,
the message text. `otherError` covers any exception type the script does not
name (its first field is the type name). -/
inductive PyError
  | ccompilerError (msg : String)
  | distutilsExecError (msg : String)
  | distutilsPlatformError (msg : String)
  | ioError (msg : String)
  | typeError (msg : String)
  | valueError (msg : String)
  | otherError (kind : String) (msg : String)
deriving DecidableEq

/-- `str(exc)`: the message text of an exception (what `print(exc)` writes). -/
def pyStr : PyError → String
  | .ccompilerError m => m
  | .distutilsExecError m => m
  | .distutilsPlatformError m => m
  | .ioError m => m
  | .typeError m => m
  | .valueError m => m
  | .otherError _ m => m

/-- Membership in the `ext_errors` tuple:
`(CCompilerError, DistutilsExecError, DistutilsPlatformError)`, to which
`(IOError, TypeError)` is appended exactly when `sys.platform == "win32"`. -/
def ext_errors (plat : PyPlatform) : PyError → Bool
  | .ccompilerError _ => true
  | .distutilsExecError _ => true
  | .distutilsPlatformError _ => true
  | .ioError _ => match plat with | .win32 => true | _ => false
  | .typeError _ => match plat with | .win32 => true | _ => false
  | _ => false

/-- The `extra_compile_args` chosen per platform at module load:
`[]` on win32, `["-Wundef"]` on linux, `[]` otherwise. -/
def extra_compile_args : PyPlatform → List String
  | .win32 => []
  | .linux => ["-Wundef"]
  | .otherOS => []

/-- A `setuptools.Extension` descriptor: name, C sources, compile flags. -/
structure Extension where
  name : String
  sources : List String
  extra_compile_args : List String
deriving DecidableEq

/-- The static `ext_modules` list of the three C extension descriptors. -/
def ext_modules (plat : PyPlatform) : List Extension :=
  [⟨"sqlalchemy.cprocessors", ["lib/sqlalchemy/cextension/processors.c"],
     extra_compile_args plat⟩,
   ⟨"sqlalchemy.cresultproxy", ["lib/sqlalchemy/cextension/resultproxy.c"],
     extra_compile_args plat⟩,
   ⟨"sqlalchemy.cutils", ["lib/sqlalchemy/cextension/utils.c"],
     extra_compile_args plat⟩]

/-- Whether the character list `p` is an initial segment of `l`. -/
def prefixMatches : List Char → List Char → Bool
  | [], _ => true
  | _ :: _, [] => false
  | p :: ps, c :: cs => p == c && prefixMatches ps cs

/-- Whether the character list `pat` occurs contiguously inside `l`. -/
def occursIn (pat : List Char) : List Char → Bool
  | [] => prefixMatches pat []
  | c :: cs => prefixMatches pat (c :: cs) || occursIn pat cs

/-- Python substring test `pat in s`. -/
def strContains (s pat : String) : Bool :=
  occursIn pat.toList s.toList

/-- The six-character pattern the script looks for inside a `ValueError`
message: a single quote (code 39), `path`, a single quote. -/
def pathPat : String :=
  String.mk ([39, 112, 97, 116, 104, 39].map Char.ofNat)

/-- Result of running one compilation step under `ve_build_ext`: it returned
normally, raised `BuildFailed` carrying the original cause, or let some other
exception propagate. -/
inductive ExtBuildResult
  | ok
  | buildFailed (cause : PyError)
  | raised (e : PyError)
deriving DecidableEq

/-- `ve_build_ext.build_extension`: runs the base compilation step (whose
behaviour is the `raw` parameter: `none` means it returns, `some e` means it
raises `e`), catching `ext_errors` as `BuildFailed`, and a `ValueError` whose
message contains `pathPat` as `BuildFailed`; everything else is re-raised. -/
def build_extension (plat : PyPlatform) : Option PyError → ExtBuildResult
  | none => .ok
  | some e =>
    if ext_errors plat e then .buildFailed e
    else
      match e with
      | .valueError msg =>
        if strContains msg pathPat then .buildFailed (.valueError msg)
        else .raised (.valueError msg)
      | _ => .raised e

/-- `ve_build_ext.run`: wraps the inner build, additionally catching a
propagating `DistutilsPlatformError` as `BuildFailed`. -/
def ve_build_ext_run : ExtBuildResult → ExtBuildResult
  | .raised (.distutilsPlatformError m) => .buildFailed (.distutilsPlatformError m)
  | r => r

/-- One full build attempt of the native extension set: the per-extension
classifier inside the `ve_build_ext.run` wrapper. -/
def attempt (plat : PyPlatform) (raw : Option PyError) : ExtBuildResult :=
  ve_build_ext_run (build_extension plat raw)

/-- The `Distribution` subclass handed to `setup()` via `distclass`; it
records the `ext_modules` keyword the `setup()` call received. -/
structure Distribution where
  ext_modules : List Extension
deriving DecidableEq

/-- `Distribution.has_ext_modules`: overridden to return `True`
unconditionally, so the wheel is always marked platform-specific. -/
def Distribution.has_ext_modules (_ : Distribution) : Bool :=
  true

/-- The separator line `"*" * 75` printed by `status_msgs`. -/
def ruleLine : String :=
  String.join (List.replicate 75 "*")

/-- `status_msgs(*msgs)`: the lines printed by one call — a rule line, the
messages in order, a rule line. -/
def status_msgs (msgs : List String) : List String :=
  [ruleLine] ++ msgs ++ [ruleLine]

def plainOkMsg : String := "Plain-Python build succeeded."

def nonCpythonMsg : String :=
  "WARNING: C extensions are not supported on this Python platform, speedups are not enabled."

def disableMsg : String :=
  "DISABLE_SQLALCHEMY_CEXT is set; not attempting to build C extensions."

def requireNoteMsg : String :=
  "NOTE: C extension build is required because REQUIRE_SQLALCHEMY_CEXT is set, and the build has failed; will not degrade to non-C extensions"

def cextWarnMsg : String :=
  "WARNING: The C extension could not be compiled, speedups are not enabled."

def failureInfoMsg : String := "Failure information, if any, is above."

def retryingMsg : String := "Retrying the build without the C extension now."

/-- The decision context read once per run: interpreter kind
(`platform.python_implementation() == "CPython"`), `sys.platform`, and the
presence of the two environment variables. -/
structure Env where
  cpython : Bool
  plat : PyPlatform
  disable_cext : Bool
  require_cext : Bool
deriving DecidableEq

/-- Outcome of one `run_setup` call: `setup()` returned, `BuildFailed`
escaped it, some other exception escaped it, or the `AssertionError` guard
fired before `setup()` was reached. -/
inductive SetupResult
  | setupOk
  | buildFailedSig (cause : PyError)
  | otherExc (e : PyError)
  | assertionHit
deriving DecidableEq

/-- `run_setup(with_cext)`: with the C extensions, it calls `setup()` with
the full `ext_modules` list and the attempt classifier decides the outcome;
without them, it first raises `AssertionError` if `REQUIRE_SQLALCHEMY_CEXT`
is set, and otherwise calls `setup()` with an empty `ext_modules` list.
Returns the list of `Distribution` objects actually constructed by `setup()`
calls, paired with the outcome. -/
def run_setup (env : Env) (raw : Option PyError) (with_cext : Bool) :
    List Distribution × SetupResult :=
  if with_cext then
    ([⟨ext_modules env.plat⟩],
      match attempt env.plat raw with
      | .ok => .setupOk
      | .buildFailed c => .buildFailedSig c
      | .raised e => .otherExc e)
  else
    if env.require_cext then ([], .assertionHit)
    else ([⟨([] : List Extension)⟩], .setupOk)

/-- Terminal state of the whole script run. -/
inductive Outcome
  | succeeded
  | fellBack
  | requiredFailed (cause : PyError)
  | unhandledError (e : PyError)
  | assertionFailed
deriving DecidableEq

/-- Observable trace of one run: the distributions constructed by `setup()`
calls in order, all printed lines, the process exit code, and the terminal
state. -/
structure Trace where
  dists : List Distribution
  output : List String
  exit : Nat
  outcome : Outcome
deriving DecidableEq

/-- The module-level orchestration at the bottom of `setup.py`:
non-CPython → plain build plus warning; `DISABLE_SQLALCHEMY_CEXT` → plain
build plus note; otherwise try the C build, and on `BuildFailed` either abort
(when `REQUIRE_SQLALCHEMY_CEXT` is set) or report, retry without the
extensions, and report again. An uncaught exception exits nonzero. -/
def buildMain (env : Env) (raw : Option PyError) : Trace :=
  match env.cpython with
  | false =>
    match run_setup env raw false with
    | (ds, .assertionHit) => ⟨ds, [], 1, .assertionFailed⟩
    | (ds, _) => ⟨ds, status_msgs [nonCpythonMsg, plainOkMsg], 0, .fellBack⟩
  | true =>
    match env.disable_cext with
    | true =>
      match run_setup env raw false with
      | (ds, .assertionHit) => ⟨ds, [], 1, .assertionFailed⟩
      | (ds, _) => ⟨ds, status_msgs [disableMsg, plainOkMsg], 0, .fellBack⟩
    | false =>
      match run_setup env raw true with
      | (ds, .setupOk) => ⟨ds, [], 0, .succeeded⟩
      | (ds, .otherExc e) => ⟨ds, [], 1, .unhandledError e⟩
      | (ds, .assertionHit) => ⟨ds, [], 1, .assertionFailed⟩
      | (ds, .buildFailedSig c) =>
        match env.require_cext with
        | true => ⟨ds, status_msgs [requireNoteMsg], 1, .requiredFailed c⟩
        | false =>
          match run_setup env raw false with
          | (ds2, .assertionHit) =>
            ⟨ds ++ ds2,
              status_msgs [pyStr c, cextWarnMsg, failureInfoMsg, retryingMsg],
              1, .assertionFailed⟩
          | (ds2, _) =>
            ⟨ds ++ ds2,
              status_msgs [pyStr c, cextWarnMsg, failureInfoMsg, retryingMsg]
                ++ status_msgs [cextWarnMsg, plainOkMsg],
              0, .fellBack⟩


/-! ## Claim theorems -/

/-- C1 (counterexample): on the non-CPython early-exit path the single
`Distribution` handed to `setup()` still declares `has_ext_modules = true`,
not `false` as the claim states. -/
theorem c1_counterexample :
    (buildMain ⟨false, PyPlatform.otherOS, false, false⟩ none).dists.map
        Distribution.has_ext_modules = [true]
    ∧ (buildMain ⟨false, PyPlatform.otherOS, false, false⟩ none).dists.map
        Distribution.has_ext_modules ≠ [false] := by
  constructor <;> decide

/-- C1 (amended): on both early-exit paths (non-CPython interpreter, or
`DISABLE_SQLALCHEMY_CEXT` set) every distribution descriptor constructed
declares `has_ext_modules = true` — never `false` — while no native build is
attempted: every `setup()` call receives an empty `ext_modules` list. -/
theorem c1_early_exit_flag (env : Env) (raw : Option PyError)
    (h : env.cpython = false ∨ env.disable_cext = true) :
    ∀ d ∈ (buildMain env raw).dists,
      d.has_ext_modules = true ∧ d.ext_modules = [] := by
  obtain ⟨c, p, dz, rq⟩ := env
  cases c <;> cases dz <;> cases rq <;>
    simp_all [buildMain, run_setup, Distribution.has_ext_modules]

/-- C1 (witness): instantiating the amended claim on the non-CPython path. -/
theorem c1_witness :
    Distribution.has_ext_modules ⟨([] : List Extension)⟩ = true
    ∧ Distribution.ext_modules ⟨([] : List Extension)⟩ = [] :=
  c1_early_exit_flag ⟨false, PyPlatform.otherOS, false, false⟩ none (Or.inl rfl)
    ⟨([] : List Extension)⟩ (by decide)

/-- C2 (counterexample): with `REQUIRE_SQLALCHEMY_CEXT` set and a classified
compiler failure, the run does terminate as `requiredFailed`, but no line of
the emitted status output contains the original cause text. -/
theorem c2_counterexample :
    (buildMain ⟨true, PyPlatform.linux, false, true⟩
        (some (PyError.ccompilerError "gcc exited with status 1"))).output.all
        (fun line => !(strContains line "gcc exited with status 1")) = true
    ∧ (buildMain ⟨true, PyPlatform.linux, false, true⟩
        (some (PyError.ccompilerError "gcc exited with status 1"))).outcome =
        Outcome.requiredFailed (PyError.ccompilerError "gcc exited with status 1") := by
  constructor <;> decide

/-- C2 (amended): for every classified build failure with
`REQUIRE_SQLALCHEMY_CEXT` set, the runner is invoked exactly once (with the
full extension set), the emitted status output is the fixed NOTE block —
which does not include the cause text — and the failure is re-raised, ending
the process with nonzero exit. -/
theorem c2_required_abort (plat : PyPlatform) (raw : Option PyError) (c : PyError)
    (h : attempt plat raw = .buildFailed c) :
    buildMain ⟨true, plat, false, true⟩ raw =
      ⟨[⟨ext_modules plat⟩], status_msgs [requireNoteMsg], 1, .requiredFailed c⟩ := by
  simp [buildMain, run_setup, h]

/-- C2 (witness): the amended claim at a concrete classified failure. -/
theorem c2_witness :
    buildMain ⟨true, PyPlatform.linux, false, true⟩
        (some (PyError.distutilsExecError "command cc failed")) =
      ⟨[⟨ext_modules PyPlatform.linux⟩], status_msgs [requireNoteMsg], 1,
        Outcome.requiredFailed (PyError.distutilsExecError "command cc failed")⟩ :=
  c2_required_abort PyPlatform.linux
    (some (PyError.distutilsExecError "command cc failed"))
    (PyError.distutilsExecError "command cc failed") (by decide)

/-- C3 (counterexample): with both `DISABLE_SQLALCHEMY_CEXT` and
`REQUIRE_SQLALCHEMY_CEXT` set the process exits nonzero (the `AssertionError`
in `run_setup(False)` fires), unlike the only-DISABLE run which exits 0 —
refuting that disable silently wins with exit code 0. -/
theorem c3_counterexample :
    (buildMain ⟨true, PyPlatform.linux, true, true⟩ none).exit = 1
    ∧ (buildMain ⟨true, PyPlatform.linux, true, true⟩ none).dists = []
    ∧ (buildMain ⟨true, PyPlatform.linux, true, false⟩ none).exit = 0 := by
  refine ⟨rfl, rfl, rfl⟩

/-- C3 (amended): when both overrides are set, the explicitly-disabled branch
is taken and the build-attempt runner is never invoked (`setup()` is never
reached), but `run_setup(False)` raises `AssertionError` because the require
flag is set, so the process terminates with nonzero exit — not successfully
as with `DISABLE_SQLALCHEMY_CEXT` alone, which ends `fellBack` with exit 0. -/
theorem c3_conflicting_flags (plat : PyPlatform) (raw : Option PyError) :
    buildMain ⟨true, plat, true, true⟩ raw = ⟨[], [], 1, .assertionFailed⟩
    ∧ buildMain ⟨true, plat, true, false⟩ raw =
        ⟨[⟨([] : List Extension)⟩], status_msgs [disableMsg, plainOkMsg], 0,
          .fellBack⟩ := by
  constructor <;> rfl

/-- C4 (counterexample): on a non-CPython platform with
`REQUIRE_SQLALCHEMY_CEXT` set the run exits 1 and does not end `fellBack`
(the `AssertionError` in `run_setup(False)` fires), and even without the
flag one `setup()` invocation (with the empty descriptor set) occurs —
refuting "regardless of override flags … FellBack with exit code 0" and
"the runner is never invoked". -/
theorem c4_counterexample :
    (buildMain ⟨false, PyPlatform.otherOS, false, true⟩ none).exit = 1
    ∧ (buildMain ⟨false, PyPlatform.otherOS, false, true⟩ none).outcome ≠
        Outcome.fellBack
    ∧ (buildMain ⟨false, PyPlatform.otherOS, false, false⟩ none).dists ≠ [] := by
  refine ⟨rfl, by decide, by decide⟩

/-- C4 (amended): on every platform profile that cannot support native
modules (non-CPython), no native build is ever attempted; with the require
flag unset the runner is invoked exactly once, with the empty descriptor
set, and the build ends `fellBack` with exit 0, while with the require flag
set `run_setup(False)` raises `AssertionError` and the process exits
nonzero. -/
theorem c4_noncpython (plat : PyPlatform) (dz : Bool) (raw : Option PyError) :
    buildMain ⟨false, plat, dz, false⟩ raw =
      ⟨[⟨([] : List Extension)⟩], status_msgs [nonCpythonMsg, plainOkMsg], 0,
        .fellBack⟩
    ∧ buildMain ⟨false, plat, dz, true⟩ raw = ⟨[], [], 1, .assertionFailed⟩ := by
  constructor <;> rfl

/-- C5: for every classified build failure with the require flag unset, the
runner is invoked exactly twice — first with the full extension set, then
with the empty set — the second invocation returns `setupOk` by
construction, and the build ends `fellBack` with exit 0, after the retry
status block (showing the cause) and the final status block. -/
theorem c5_classified_fallback (plat : PyPlatform) (raw : Option PyError)
    (c : PyError) (h : attempt plat raw = .buildFailed c) :
    buildMain ⟨true, plat, false, false⟩ raw =
      ⟨[⟨ext_modules plat⟩, ⟨([] : List Extension)⟩],
        status_msgs [pyStr c, cextWarnMsg, failureInfoMsg, retryingMsg]
          ++ status_msgs [cextWarnMsg, plainOkMsg],
        0, .fellBack⟩
    ∧ (run_setup ⟨true, plat, false, false⟩ raw false).2 = .setupOk := by
  constructor
  · simp [buildMain, run_setup, h]
  · rfl

/-- C5 (witness): the fallback retry at a concrete classified failure. -/
theorem c5_witness :
    buildMain ⟨true, PyPlatform.win32, false, false⟩
        (some (PyError.typeError "argument of wrong kind")) =
      ⟨[⟨ext_modules PyPlatform.win32⟩, ⟨([] : List Extension)⟩],
        status_msgs [pyStr (PyError.typeError "argument of wrong kind"),
          cextWarnMsg, failureInfoMsg, retryingMsg]
          ++ status_msgs [cextWarnMsg, plainOkMsg],
        0, Outcome.fellBack⟩
    ∧ (run_setup ⟨true, PyPlatform.win32, false, false⟩
        (some (PyError.typeError "argument of wrong kind")) false).2 =
        SetupResult.setupOk :=
  c5_classified_fallback PyPlatform.win32
    (some (PyError.typeError "argument of wrong kind"))
    (PyError.typeError "argument of wrong kind") (by decide)

/-- C6: an I/O error or a type-mismatch error raised during per-extension
compilation is classified as `BuildFailed` exactly on win32; on every other
platform the same error propagates unchanged. -/
theorem c6_win32_broadened (plat : PyPlatform) (m : String) :
    build_extension plat (some (.ioError m)) =
      (if plat = PyPlatform.win32 then .buildFailed (.ioError m)
       else .raised (.ioError m))
    ∧ build_extension plat (some (.typeError m)) =
      (if plat = PyPlatform.win32 then .buildFailed (.typeError m)
       else .raised (.typeError m)) := by
  cases plat <;> simp [build_extension, ext_errors]

/-- C7: on every platform (in particular on win32), a `ValueError` whose
message contains the quoted substring `pathPat` is reclassified during
per-extension compilation as `BuildFailed` carrying the original cause. -/
theorem c7_valueerror_path (plat : PyPlatform) (m : String)
    (h : strContains m pathPat = true) :
    build_extension plat (some (.valueError m)) = .buildFailed (.valueError m) := by
  cases plat <;> simp [build_extension, ext_errors, h]

/-- C7 (witness): a concrete win32 `ValueError` message containing the
pattern is classified as a build failure. -/
theorem c7_witness :
    build_extension PyPlatform.win32
        (some (PyError.valueError (String.append (String.append "bad "
          pathPat) " value"))) =
      ExtBuildResult.buildFailed (PyError.valueError (String.append
        (String.append "bad " pathPat) " value")) :=
  c7_valueerror_path PyPlatform.win32
    (String.append (String.append "bad " pathPat) " value") (by decide)

/-- C8: an error that matches no classification rule — not in the platform's
`ext_errors` tuple and not a `ValueError` containing the pattern — is
re-raised unchanged by the classifier and by the whole attempt wrapper, is
never converted into `BuildFailed`, and aborts the run with no retry: one
`setup()` invocation, nonzero exit, `unhandledError` outcome. -/
theorem c8_unclassified (plat : PyPlatform) (rq : Bool) (e : PyError)
    (h1 : ext_errors plat e = false)
    (h2 : ∀ m, e = .valueError m → strContains m pathPat = false) :
    build_extension plat (some e) = .raised e
    ∧ attempt plat (some e) = .raised e
    ∧ buildMain ⟨true, plat, false, rq⟩ (some e) =
        ⟨[⟨ext_modules plat⟩], [], 1, .unhandledError e⟩ := by
  have hb : build_extension plat (some e) = .raised e := by
    cases e with
    | ccompilerError m => simp [ext_errors] at h1
    | distutilsExecError m => simp [ext_errors] at h1
    | distutilsPlatformError m => simp [ext_errors] at h1
    | ioError m => simp [build_extension, h1]
    | typeError m => simp [build_extension, h1]
    | valueError m => simp [build_extension, ext_errors, h2 m rfl]
    | otherError k m => simp [build_extension, ext_errors]
  have ha : attempt plat (some e) = .raised e := by
    rw [attempt, hb]
    cases e <;> first | rfl | simp [ext_errors] at h1
  exact ⟨hb, ha, by simp [buildMain, run_setup, ha]⟩

/-- C8 (witness): a runtime error of an unrelated type on linux propagates
through the attempt and aborts the run without retry. -/
theorem c8_witness :
    build_extension PyPlatform.linux
        (some (PyError.otherError "RuntimeError" "boom")) =
      ExtBuildResult.raised (PyError.otherError "RuntimeError" "boom")
    ∧ attempt PyPlatform.linux (some (PyError.otherError "RuntimeError" "boom")) =
      ExtBuildResult.raised (PyError.otherError "RuntimeError" "boom")
    ∧ buildMain ⟨true, PyPlatform.linux, false, false⟩
        (some (PyError.otherError "RuntimeError" "boom")) =
      ⟨[⟨ext_modules PyPlatform.linux⟩], [], 1,
        Outcome.unhandledError (PyError.otherError "RuntimeError" "boom")⟩ :=
  c8_unclassified PyPlatform.linux false (PyError.otherError "RuntimeError" "boom")
    (by decide) (by intro m hm; simp at hm)

/-- C9: every `status_msgs` call emits a rule line, the message lines in
order, then another rule line, where the rule line is exactly 75 repeated
asterisk characters. -/
theorem c9_status_format (msgs : List String) :
    status_msgs msgs = [ruleLine] ++ msgs ++ [ruleLine]
    ∧ ruleLine.length = 75
    ∧ ruleLine.toList = List.replicate 75 (Char.ofNat 42) :=
  ⟨rfl, by decide, by decide⟩

/-- C10: in the fallback retry path (classified failure caught, require flag
unset, environment unchanged), the retry call `run_setup(False)` never takes
the `AssertionError` branch: it returns `setupOk`, and the run completes
`fellBack`. -/
theorem c10_retry_guard_unreachable (plat : PyPlatform) (raw : Option PyError)
    (c : PyError) (h : attempt plat raw = .buildFailed c) :
    (run_setup ⟨true, plat, false, false⟩ raw false).2 = .setupOk
    ∧ (run_setup ⟨true, plat, false, false⟩ raw false).2 ≠ .assertionHit
    ∧ (buildMain ⟨true, plat, false, false⟩ raw).outcome = .fellBack := by
  refine ⟨rfl, by simp [run_setup], ?_⟩
  simp [buildMain, run_setup, h]

/-- C10 (witness): the retry guard at a concrete classified failure. -/
theorem c10_witness :
    (run_setup ⟨true, PyPlatform.linux, false, false⟩
        (some (PyError.ccompilerError "cc1: fatal error")) false).2 =
      SetupResult.setupOk
    ∧ (run_setup ⟨true, PyPlatform.linux, false, false⟩
        (some (PyError.ccompilerError "cc1: fatal error")) false).2 ≠
      SetupResult.assertionHit
    ∧ (buildMain ⟨true, PyPlatform.linux, false, false⟩
        (some (PyError.ccompilerError "cc1: fatal error"))).outcome =
      Outcome.fellBack :=
  c10_retry_guard_unreachable PyPlatform.linux
    (some (PyError.ccompilerError "cc1: fatal error"))
    (PyError.ccompilerError "cc1: fatal error") (by decide)

end SetupBuild
